import Mathlib

/-
Verification of the roboCleaner grip-classification pipeline.

The development shallowly embeds the two python modules
  ml_model/grip_classifier.py        (inference: GripClassifier)
  ml_model/train_grip_classifier.py  (training: loader, feature extractor, model selection)
Coordinates and probabilities are modelled as rationals, geometric feature
values as reals (np.linalg.norm is a real square root).  Fallible python code
(returning None, or raising on malformed input) is modelled with Option.
-/

set_option maxRecDepth 4000
set_option maxHeartbeats 1000000

/-- Python builtin max over a nonempty list, as used on coordinate lists
(the lists it is applied to in the source always have 5 or 21 elements, hence
are nonempty; the empty case defaults to 0 and is never reached). -/
def pyMax (l : List ℚ) : ℚ := l.foldl max (l.headD 0)

/-- Python builtin min over a nonempty list (see pyMax). -/
def pyMin (l : List ℚ) : ℚ := l.foldl min (l.headD 0)

/-- Python builtin max returning a failure on the empty list (python raises
ValueError there); used for max(probabilities) in GripClassifier.predict. -/
def pyListMax (l : List ℚ) : Option ℚ :=
  match l with
  | [] => none
  | x :: xs => some (xs.foldl max x)

/-- np.mean over a list of reals. -/
noncomputable def npMean (l : List ℝ) : ℝ := l.sum / (l.length : ℝ)

/-- np.linalg.norm of a 2-d vector with rational components: the euclidean
norm sqrt(x^2 + y^2). -/
noncomputable def npNorm (v : ℚ × ℚ) : ℝ :=
  Real.sqrt ((v.1 * v.1 + v.2 * v.2 : ℚ) : ℝ)

/-- Componentwise difference of two 2-d points (numpy array subtraction). -/
def vsub (a b : ℚ × ℚ) : ℚ × ℚ := (a.1 - b.1, a.2 - b.2)

/-- Cosine-of-angle feature of grip_classifier.py line 111 and
train_grip_classifier.py line 119:
np.dot(vec1, vec2) / (np.linalg.norm(vec1) * np.linalg.norm(vec2) + 1e-6). -/
noncomputable def cosAngle (v1 v2 : ℚ × ℚ) : ℝ :=
  ((v1.1 * v2.1 + v1.2 * v2.2 : ℚ) : ℝ) / (npNorm v1 * npNorm v2 + 1 / 1000000)

/-- Body of GripClassifier.extract_features (grip_classifier.py lines 68-126)
on the converted 21-point array: wrist = points[0], tips = points[4,8,12,16,20],
mcps = points[5,9,13,17]; features appended in source order. -/
noncomputable def featuresOfPoints (pts : List (ℚ × ℚ)) : List ℝ :=
  let wrist := pts.getD 0 (0, 0)
  let tips := [pts.getD 4 (0, 0), pts.getD 8 (0, 0), pts.getD 12 (0, 0),
               pts.getD 16 (0, 0), pts.getD 20 (0, 0)]
  let mcps := [pts.getD 5 (0, 0), pts.getD 9 (0, 0), pts.getD 13 (0, 0),
               pts.getD 17 (0, 0)]
  let tipDists := tips.map (fun tip => npNorm (vsub tip wrist))
  tipDists
    ++ [npMean (tips.map (fun tip => npNorm (vsub tip wrist)))]
    ++ [((pyMax (tips.map Prod.fst) - pyMin (tips.map Prod.fst) : ℚ) : ℝ),
        ((pyMax (tips.map Prod.snd) - pyMin (tips.map Prod.snd) : ℚ) : ℝ)]
    ++ [npNorm (vsub (tips.getD 0 (0, 0)) (tips.getD 1 (0, 0)))]
    ++ [npNorm (vsub (tips.getD 1 (0, 0)) (tips.getD 2 (0, 0)))]
    ++ (List.range (mcps.length - 1)).map (fun i =>
          cosAngle (vsub (mcps.getD i (0, 0)) wrist)
                   (vsub (mcps.getD (i + 1) (0, 0)) wrist))
    ++ [(((pyMax (pts.map Prod.fst) - pyMin (pts.map Prod.fst)) *
          (pyMax (pts.map Prod.snd) - pyMin (pts.map Prod.snd)) : ℚ) : ℝ)]
    ++ tips.flatMap (fun tip => [((tip.1 - wrist.1 : ℚ) : ℝ),
                              ((tip.2 - wrist.2 : ℚ) : ℝ)])

/-- GripClassifier.extract_features (grip_classifier.py lines 46-126) on a raw
point list (the MediaPipe-object branch just converts that object to the same
list shape).  A landmark list whose length is not 21 returns None (line 65-66).
A point with fewer than two coordinates makes the subsequent numpy code fail
(ragged np.array construction, or an index past the end of a width-1 row):
that failure is modelled, like the explicit None, as the none result; a point
carrying extra coordinates contributes its first two. -/
noncomputable def extract_features (landmarks : List (List ℚ)) : Option (List ℝ) :=
  if landmarks.length = 21 then
    if ∀ p ∈ landmarks, 2 ≤ p.length then
      some (featuresOfPoints (landmarks.map (fun p => (p.getD 0 0, p.getD 1 0))))
    else none
  else none

/-- Body of extract_advanced_features (train_grip_classifier.py lines 76-135),
written out separately from featuresOfPoints because the training file
duplicates the inference code line for line. -/
noncomputable def advancedFeaturesOfPoints (pts : List (ℚ × ℚ)) : List ℝ :=
  let wrist := pts.getD 0 (0, 0)
  let tips := [pts.getD 4 (0, 0), pts.getD 8 (0, 0), pts.getD 12 (0, 0),
               pts.getD 16 (0, 0), pts.getD 20 (0, 0)]
  let mcps := [pts.getD 5 (0, 0), pts.getD 9 (0, 0), pts.getD 13 (0, 0),
               pts.getD 17 (0, 0)]
  let tipDists := tips.map (fun tip => npNorm (vsub tip wrist))
  tipDists
    ++ [npMean (tips.map (fun tip => npNorm (vsub tip wrist)))]
    ++ [((pyMax (tips.map Prod.fst) - pyMin (tips.map Prod.fst) : ℚ) : ℝ),
        ((pyMax (tips.map Prod.snd) - pyMin (tips.map Prod.snd) : ℚ) : ℝ)]
    ++ [npNorm (vsub (tips.getD 0 (0, 0)) (tips.getD 1 (0, 0)))]
    ++ [npNorm (vsub (tips.getD 1 (0, 0)) (tips.getD 2 (0, 0)))]
    ++ (List.range (mcps.length - 1)).map (fun i =>
          cosAngle (vsub (mcps.getD i (0, 0)) wrist)
                   (vsub (mcps.getD (i + 1) (0, 0)) wrist))
    ++ [(((pyMax (pts.map Prod.fst) - pyMin (pts.map Prod.fst)) *
          (pyMax (pts.map Prod.snd) - pyMin (pts.map Prod.snd)) : ℚ) : ℝ)]
    ++ tips.flatMap (fun tip => [((tip.1 - wrist.1 : ℚ) : ℝ),
                              ((tip.2 - wrist.2 : ℚ) : ℝ)])

/-- extract_advanced_features (train_grip_classifier.py lines 62-135): same
validation and feature computation as the inference-side extractor. -/
noncomputable def extract_advanced_features (landmarks : List (List ℚ)) :
    Option (List ℝ) :=
  if landmarks.length = 21 then
    if ∀ p ∈ landmarks, 2 ≤ p.length then
      some (advancedFeaturesOfPoints (landmarks.map (fun p => (p.getD 0 0, p.getD 1 0))))
    else none
  else none

/-- Translation of a raw landmark point by a constant offset: the first two
coordinates are shifted, any further coordinates are kept. -/
def translatePoint (dx dy : ℚ) (p : List ℚ) : List ℚ :=
  match p with
  | x :: y :: rest => (x + dx) :: (y + dy) :: rest
  | other => other

/-- Shift of a converted 2-d point by a constant offset. -/
def shiftPt (dx dy : ℚ) (q : ℚ × ℚ) : ℚ × ℚ := (q.1 + dx, q.2 + dy)

/-- A trained sklearn model as GripClassifier.predict uses it: a point
prediction (model.predict on one sample, giving the class label) and an
optional per-class probability function (model.predict_proba, present exactly
when the model family exposes it). -/
structure SkModel where
  predictFn : List ℝ → ℕ
  predictProbaFn : Option (List ℝ → List ℚ)

/-- The dict returned by GripClassifier.predict (lines 162-167). -/
structure Prediction where
  is_closed : Bool
  confidence : ℚ
  raw_value : ℚ
  probabilities : Option (List ℚ)
  deriving Repr

/-- GripClassifier state after __init__: self.model is None when no artifact
was present at the path or loading raised, otherwise the loaded model. -/
structure GripClassifier where
  model : Option SkModel

/-- GripClassifier.__init__ (lines 13-44), with the filesystem load modelled
by its outcome: a missing artifact or a load exception yields model = None,
a successful joblib.load yields the model. -/
def initClassifier (loaded : Option SkModel) : GripClassifier := ⟨loaded⟩

/-- GripClassifier.is_available (lines 169-171). -/
def is_available (gc : GripClassifier) : Bool := gc.model.isSome

/-- GripClassifier.predict (lines 128-167).  Returns none when no model is
loaded or feature extraction returns None; otherwise one model call gives the
label, and when predict_proba is available confidence is max(probabilities)
(python max on an empty probability vector would raise, modelled none). -/
noncomputable def predict (gc : GripClassifier) (landmarks : List (List ℚ)) :
    Option Prediction :=
  match gc.model with
  | none => none
  | some m =>
    match extract_features landmarks with
    | none => none
    | some features =>
      let prediction := m.predictFn features
      match m.predictProbaFn with
      | some f =>
        let probs := f features
        match pyListMax probs with
        | none => none
        | some confidence =>
          some { is_closed := prediction == 0
                 confidence := confidence
                 raw_value := (prediction : ℚ)
                 probabilities := some probs }
      | none =>
        some { is_closed := prediction == 0
               confidence := 1
               raw_value := (prediction : ℚ)
               probabilities := none }

/-- sklearn.metrics.accuracy_score: fraction of positions where the predicted
label equals the true label. -/
def accuracy_score (yTrue yPred : List ℕ) : ℚ :=
  (((yTrue.zip yPred).countP (fun p => p.1 == p.2) : ℕ) : ℚ) / (yTrue.length : ℚ)

/-- Model selection in main (train_grip_classifier.py lines 276-290): both
candidates are re-scored on the entire dataset X, y and the one with higher
full-dataset accuracy wins; rf_acc >= svm_acc picks the random forest. -/
def selectBestModel {α : Type} (X : List α) (y : List ℕ) (rf svm : α → ℕ) :
    String × (α → ℕ) :=
  let rf_acc := accuracy_score y (X.map rf)
  let svm_acc := accuracy_score y (X.map svm)
  if svm_acc ≤ rf_acc then ("random_forest", rf) else ("svm", svm)

/-- The metadata dict persisted by main (train_grip_classifier.py
lines 300-308): exactly the six keys written there. -/
structure Metadata where
  model_type : String
  feature_count : ℕ
  training_samples : ℕ
  fist_samples : ℕ
  palm_samples : ℕ
  accuracy : ℚ
  deriving Repr, DecidableEq

/-- Construction of the metadata dict in main (lines 276-308): rf_acc and
svm_acc are the full-dataset accuracies of lines 280-281, feature_count is
X.shape[1] (the row width), and the stored accuracy is rf_acc for the random
forest choice and svm_acc otherwise. -/
def buildMetadata (X : List (List ℝ)) (y : List ℕ) (rf svm : List ℝ → ℕ) :
    Metadata :=
  let rf_acc := accuracy_score y (X.map rf)
  let svm_acc := accuracy_score y (X.map svm)
  let model_name := if svm_acc ≤ rf_acc then "random_forest" else "svm"
  { model_type := model_name
    feature_count := (X.headD []).length
    training_samples := X.length
    fist_samples := y.countP (fun l => l == 0)
    palm_samples := y.countP (fun l => l == 1)
    accuracy := if model_name = "random_forest" then rf_acc else svm_acc }

/-- Held-out evaluation inside train_model (lines 222-223): the accuracy of a
model on the test partition produced by train_test_split. -/
def heldoutAccuracy (XTest : List (List ℝ)) (yTest : List ℕ)
    (model : List ℝ → ℕ) : ℚ :=
  accuracy_score yTest (XTest.map model)

/-- One record of the training JSON: the optional 'landmarks' key holds the
per-hand list, each hand a list of points, each point a list of coordinates. -/
structure SampleRecord where
  landmarks : Option (List (List (List ℚ)))

/-- The flattening loop of load_landmark_data (lines 49-52): points with at
least two coordinates contribute their first two, shorter points are passed
over. -/
def flattenHand (hand : List (List ℚ)) : List ℚ :=
  hand.foldl
    (fun acc point =>
      if 2 ≤ point.length then acc ++ [point.getD 0 0, point.getD 1 0] else acc)
    []

/-- Per-record body of the load_landmark_data loop (lines 42-57): requires the
'landmarks' key with a nonempty hand list, takes hand index 0 only, requires
21 landmark points and a flattened vector of exactly 42 coordinates. -/
def processRecord (r : SampleRecord) : Option (List ℚ) :=
  match r.landmarks with
  | none => none
  | some [] => none
  | some (hand :: _) =>
    if hand.length = 21 then
      let fv := flattenHand hand
      if fv.length = 42 then some fv else none
    else none

/-- load_landmark_data (train_grip_classifier.py lines 21-60): fold over the
records in dictionary order, accumulating feature vectors, labels, and the
loaded-sample count that the function reports. -/
def load_landmark_data (data : List SampleRecord) (label : ℕ) :
    List (List ℚ) × List ℕ × ℕ :=
  data.foldl
    (fun acc r =>
      match processRecord r with
      | some fv => (acc.1 ++ [fv], acc.2.1 ++ [label], acc.2.2 + 1)
      | none => acc)
    ([], [], 0)

/-- Samples skipped by a load: total records minus the reported loaded count. -/
def skippedCount (data : List SampleRecord) (label : ℕ) : ℕ :=
  data.length - (load_landmark_data data label).2.2

/-- The feature list built by featuresOfPoints always has 24 entries:
5 tip distances + 1 mean + 2 spread + 1 pinch + 1 index-middle + 3 cosines
+ 1 area + 10 wrist-relative coordinates. -/
theorem featuresOfPoints_length (pts : List (ℚ × ℚ)) :
    (featuresOfPoints pts).length = 24 := rfl

/-- Claim C9: the training-time extractor extract_advanced_features and the
inference-time extractor GripClassifier.extract_features compute identical
feature vectors, in the same fixed order, on every landmark list. -/
theorem claim_C9 : ∀ landmarks : List (List ℚ),
    extract_advanced_features landmarks = extract_features landmarks :=
  fun _ => rfl

/-- Claim C3: a GripClassifier whose artifact load produced nothing reports
is_available = false and predict returns the empty result none on every
input; and with a loaded model, predict returns none whenever feature
extraction fails on the given landmarks. -/
theorem claim_C3 :
    (is_available (initClassifier none) = false
      ∧ ∀ landmarks, predict (initClassifier none) landmarks = none)
    ∧ ∀ (m : SkModel) (landmarks : List (List ℚ)),
        extract_features landmarks = none →
        predict (initClassifier (some m)) landmarks = none := by
  refine ⟨⟨rfl, fun _ => rfl⟩, fun m landmarks h => ?_⟩
  unfold predict initClassifier
  rw [h]

/-- Claim C3 witness: the unavailable classifier on a concrete landmark list,
and a concrete loaded model on the empty landmark list (extraction fails). -/
theorem claim_C3_witness :
    (is_available (initClassifier none) = false
      ∧ predict (initClassifier none) [[0, 1]] = none)
    ∧ predict (initClassifier (some ⟨fun _ => 0, none⟩)) [] = none :=
  ⟨⟨claim_C3.1.1, claim_C3.1.2 [[0, 1]]⟩, claim_C3.2 ⟨fun _ => 0, none⟩ [] rfl⟩

/-- Claim C4: training picks its deployment model by re-scoring both trained
candidates on the entire dataset; the random forest is selected exactly when
its full-dataset accuracy is at least the SVM one (so an exact tie selects the
random forest), and the SVM exactly when it is strictly better. -/
theorem claim_C4 {α : Type} (X : List α) (y : List ℕ) (rf svm : α → ℕ) :
    ((selectBestModel X y rf svm).1 = "random_forest"
        ↔ accuracy_score y (X.map svm) ≤ accuracy_score y (X.map rf))
    ∧ ((selectBestModel X y rf svm).1 = "svm"
        ↔ accuracy_score y (X.map rf) < accuracy_score y (X.map svm))
    ∧ (accuracy_score y (X.map rf) = accuracy_score y (X.map svm) →
        selectBestModel X y rf svm = ("random_forest", rf)) := by
  have hsel : selectBestModel X y rf svm =
      if accuracy_score y (X.map svm) ≤ accuracy_score y (X.map rf)
      then ("random_forest", rf) else ("svm", svm) := rfl
  rw [hsel]
  have hne1 : ("random_forest" : String) ≠ "svm" := by decide
  have hne2 : ("svm" : String) ≠ "random_forest" := by decide
  by_cases h : accuracy_score y (X.map svm) ≤ accuracy_score y (X.map rf)
  · rw [if_pos h]
    exact ⟨iff_of_true rfl h, iff_of_false (fun hc => hne1 hc) (not_lt.mpr h),
      fun _ => rfl⟩
  · rw [if_neg h]
    have hlt := not_le.mp h
    exact ⟨iff_of_false (fun hc => hne2 hc) h, iff_of_true rfl hlt,
      fun heq => absurd (heq ▸ hlt) (lt_irrefl _)⟩

/-- Claim C4 witness: a concrete one-sample dataset on which both candidate
models score the same, so the tie selects the random forest. -/
theorem claim_C4_witness :
    selectBestModel [0] [0] (fun _ => 0) (fun _ => 0)
      = ("random_forest", fun _ => 0) :=
  (claim_C4 [0] [0] (fun _ => 0) (fun _ => 0)).2.2 rfl

/-- Claim C1 (amended): on a landmark list of exactly 21 points that all carry
at least two coordinates, extract_features returns a feature vector of exactly
24 scalars (the spec miscounts its own 5+1+2+1+1+3+1+10 sum as 21); on any
list whose length differs from 21, or containing a point with fewer than two
coordinates, it fails with the empty result none instead of a vector. -/
theorem claim_C1 (landmarks : List (List ℚ)) :
    (landmarks.length = 21 → (∀ p ∈ landmarks, 2 ≤ p.length) →
      ∃ v, extract_features landmarks = some v ∧ v.length = 24)
    ∧ (landmarks.length ≠ 21 → extract_features landmarks = none)
    ∧ ((∃ p ∈ landmarks, p.length < 2) → extract_features landmarks = none) := by
  refine ⟨fun h1 h2 => ?_, fun h => ?_, fun h => ?_⟩
  · have heq : extract_features landmarks
        = some (featuresOfPoints
            (landmarks.map (fun p => (p.getD 0 0, p.getD 1 0)))) := by
      unfold extract_features
      rw [if_pos h1, if_pos h2]
    exact ⟨_, heq, featuresOfPoints_length _⟩
  · unfold extract_features
    rw [if_neg h]
  · obtain ⟨p, hp, hplen⟩ := h
    unfold extract_features
    by_cases h1 : landmarks.length = 21
    · have hneg : ¬ ∀ q ∈ landmarks, 2 ≤ q.length :=
        fun hall => absurd (hall p hp) (by omega)
      rw [if_pos h1, if_neg hneg]
    · rw [if_neg h1]

/-- Claim C1 witness: the all-zero 21-point landmark list is accepted and
yields 24 feature scalars; lists of 20 points or with a 1-coordinate point are
rejected. -/
theorem claim_C1_witness :
    (∃ v, extract_features (List.replicate 21 [(0 : ℚ), 0]) = some v
        ∧ v.length = 24)
    ∧ extract_features (List.replicate 20 [(0 : ℚ), 0]) = none
    ∧ extract_features ([(0 : ℚ)] :: List.replicate 20 [(0 : ℚ), 0]) = none :=
  ⟨(claim_C1 (List.replicate 21 [(0 : ℚ), 0])).1 (by decide) (by decide),
   (claim_C1 (List.replicate 20 [(0 : ℚ), 0])).2.1 (by decide),
   (claim_C1 ([(0 : ℚ)] :: List.replicate 20 [(0 : ℚ), 0])).2.2
     ⟨[(0 : ℚ)], by simp, by decide⟩⟩

/-- Claim C1 counterexample: on a concrete valid 21-point landmark list the
extracted feature vector has 24 scalars, not the 21 the claim asserts. -/
theorem claim_C1_counterexample :
    (extract_features (List.replicate 21 [(0 : ℚ), 0])).map List.length = some 24
    ∧ (24 : ℕ) ≠ 21 :=
  ⟨rfl, by decide⟩

/-- Claim C6: on any 21-point landmark list, including fully degenerate
geometry in which every MCP-to-wrist vector has exactly zero length, feature
extraction succeeds, and the denominator used by every cosAngle feature - the
product of the two vector norms plus the epsilon 1e-6 - is strictly positive,
so the division is never by zero and the cosine is a well-defined real. -/
theorem claim_C6 (landmarks : List (List ℚ))
    (h1 : landmarks.length = 21) (h2 : ∀ p ∈ landmarks, 2 ≤ p.length) :
    (extract_features landmarks).isSome = true
    ∧ ∀ v1 v2 : ℚ × ℚ, (0 : ℝ) < npNorm v1 * npNorm v2 + 1 / 1000000 := by
  constructor
  · unfold extract_features
    rw [if_pos h1, if_pos h2]
    rfl
  · intro v1 v2
    have hn1 : (0 : ℝ) ≤ npNorm v1 := by unfold npNorm; exact Real.sqrt_nonneg _
    have hn2 : (0 : ℝ) ≤ npNorm v2 := by unfold npNorm; exact Real.sqrt_nonneg _
    exact add_pos_of_nonneg_of_pos (mul_nonneg hn1 hn2) (by norm_num)

/-- Claim C6 witness: the landmark list with all 21 points equal (every
MCP-to-wrist vector is exactly the zero vector) is processed successfully, and
the degenerate cosine denominator is still positive. -/
theorem claim_C6_witness :
    (extract_features (List.replicate 21 [(1 : ℚ)/2, 1/2])).isSome = true
    ∧ (0 : ℝ) < npNorm (0, 0) * npNorm (0, 0) + 1 / 1000000 := by
  have h := claim_C6 (List.replicate 21 [(1 : ℚ)/2, 1/2]) (by decide) (by decide)
  exact ⟨h.1, h.2 (0, 0) (0, 0)⟩

/-- The start value of a max fold is a lower bound of the fold. -/
theorem le_foldlMax : ∀ (xs : List ℚ) (x : ℚ), x ≤ xs.foldl max x
  | [], _ => le_rfl
  | y :: ys, x => le_trans (le_max_left x y) (le_foldlMax ys (max x y))

/-- A bound of the start value and of every element bounds a max fold. -/
theorem foldlMax_le {b : ℚ} : ∀ (xs : List ℚ) (x : ℚ),
    x ≤ b → (∀ y ∈ xs, y ≤ b) → xs.foldl max x ≤ b
  | [], _, hx, _ => hx
  | y :: ys, x, hx, hys =>
    foldlMax_le ys (max x y) (max_le hx (hys y (List.mem_cons_self y ys)))
      (fun z hz => hys z (List.mem_cons_of_mem y hz))

/-- Claim C2: with a loaded model and successful feature extraction, predict
returns a result whose is_closed is true exactly when the predicted label is
0, whose raw_value is that label, and whose confidence is max(probabilities)
when the model exposes predict_proba and 1.0 otherwise; in both cases, when
the probability vector is a nonempty vector of values in [0,1] (as sklearn
guarantees), the confidence lies in [0,1]. -/
theorem claim_C2 (m : SkModel) (landmarks : List (List ℚ)) (fv : List ℝ)
    (hfv : extract_features landmarks = some fv) :
    (m.predictProbaFn = none →
      ∃ r, predict (initClassifier (some m)) landmarks = some r
        ∧ (r.is_closed = true ↔ m.predictFn fv = 0)
        ∧ r.raw_value = (m.predictFn fv : ℚ)
        ∧ r.confidence = 1
        ∧ r.probabilities = none
        ∧ 0 ≤ r.confidence ∧ r.confidence ≤ 1)
    ∧ ∀ f, m.predictProbaFn = some f → f fv ≠ [] →
        (∀ p ∈ f fv, 0 ≤ p ∧ p ≤ 1) →
        ∃ r, predict (initClassifier (some m)) landmarks = some r
          ∧ (r.is_closed = true ↔ m.predictFn fv = 0)
          ∧ r.raw_value = (m.predictFn fv : ℚ)
          ∧ pyListMax (f fv) = some r.confidence
          ∧ r.probabilities = some (f fv)
          ∧ 0 ≤ r.confidence ∧ r.confidence ≤ 1 := by
  obtain ⟨pf, ppf⟩ := m
  constructor
  · intro hp
    cases hp
    refine ⟨⟨pf fv == 0, 1, (pf fv : ℚ), none⟩, ?_, by simp, rfl, rfl, rfl,
      by norm_num, le_refl 1⟩
    simp only [predict, initClassifier, hfv]
  · intro f hp hne hb
    cases hp
    cases hl : f fv with
    | nil => exact absurd hl hne
    | cons p ps =>
      have hpred : predict (initClassifier (some ⟨pf, some f⟩)) landmarks
          = some ⟨pf fv == 0, ps.foldl max p, (pf fv : ℚ), some (p :: ps)⟩ := by
        simp only [predict, initClassifier, hfv, hl, pyListMax]
      have hmem : ∀ q ∈ p :: ps, 0 ≤ q ∧ q ≤ 1 := by rw [← hl]; exact hb
      have hlb : (0 : ℚ) ≤ ps.foldl max p :=
        le_trans (hmem p (List.mem_cons_self p ps)).1 (le_foldlMax ps p)
      have hub : ps.foldl max p ≤ 1 :=
        foldlMax_le ps p (hmem p (List.mem_cons_self p ps)).2
          (fun z hz => (hmem z (List.mem_cons_of_mem p hz)).2)
      exact ⟨_, hpred, by simp, rfl, rfl, rfl, hlb, hub⟩

/-- Claim C2 witness: a concrete model that predicts label 0 with probability
vector [1, 0] on the all-zero valid landmark list. -/
theorem claim_C2_witness :
    ∃ r, predict
        (initClassifier (some ⟨fun _ => 0, some (fun _ => [(1 : ℚ), 0])⟩))
        (List.replicate 21 [(0 : ℚ), 0]) = some r
      ∧ (r.is_closed = true ↔ (0 : ℕ) = 0)
      ∧ r.raw_value = ((0 : ℕ) : ℚ)
      ∧ pyListMax [(1 : ℚ), 0] = some r.confidence
      ∧ r.probabilities = some [(1 : ℚ), 0]
      ∧ 0 ≤ r.confidence ∧ r.confidence ≤ 1 :=
  (claim_C2 ⟨fun _ => 0, some (fun _ => [(1 : ℚ), 0])⟩
      (List.replicate 21 [(0 : ℚ), 0]) _ rfl).2
    (fun _ => [(1 : ℚ), 0]) rfl (by decide) (by decide)

/-- A record accepted by the loader always contributes a 42-entry vector:
processRecord only returns some after its fv-length guard. -/
theorem processRecord_some_length (r : SampleRecord) (fv : List ℚ)
    (h : processRecord r = some fv) : fv.length = 42 := by
  obtain ⟨lms⟩ := r
  cases lms with
  | none => exact absurd h (by simp [processRecord])
  | some hands =>
    cases hands with
    | nil => exact absurd h (by simp [processRecord])
    | cons hand rest =>
      simp only [processRecord] at h
      split_ifs at h with h21 h42
      · injection h with h
        rw [← h]
        exact h42

/-- Appending one record that the loader skips leaves the load result
unchanged. -/
theorem load_append_skip (data : List SampleRecord) (r : SampleRecord)
    (label : ℕ) (h : processRecord r = none) :
    load_landmark_data (data ++ [r]) label = load_landmark_data data label := by
  unfold load_landmark_data
  rw [List.foldl_append]
  simp [h]

/-- The loaded-sample count a fold reports is bounded by the start count plus
the number of records folded over. -/
theorem load_foldl_count_le (label : ℕ) :
    ∀ (data : List SampleRecord) (acc : List (List ℚ) × List ℕ × ℕ),
      (data.foldl
        (fun acc r =>
          match processRecord r with
          | some fv => (acc.1 ++ [fv], acc.2.1 ++ [label], acc.2.2 + 1)
          | none => acc)
        acc).2.2 ≤ acc.2.2 + data.length
  | [], acc => by simp
  | r :: rest, acc => by
    rw [List.foldl_cons]
    refine le_trans (load_foldl_count_le label rest _) ?_
    have hstep : (match processRecord r with
        | some fv => (acc.1 ++ [fv], acc.2.1 ++ [label], acc.2.2 + 1)
        | none => acc).2.2 ≤ acc.2.2 + 1 := by
      cases processRecord r <;> simp
    simp only [List.length_cons]
    omega

/-- The loaded-sample count never exceeds the number of records. -/
theorem load_count_le (data : List SampleRecord) (label : ℕ) :
    (load_landmark_data data label).2.2 ≤ data.length := by
  unfold load_landmark_data
  simpa using load_foldl_count_le label data ([], [], 0)

/-- Claim C7: the loader consumes only the first detected hand of a record
(the result is unchanged by replacing everything after hand 0), and a record
with no landmarks key, with zero detected hands, or whose first hand does not
have exactly 21 landmark points is silently skipped: appending such a record
to a load leaves features, labels and the loaded count unchanged and
increases the skipped-sample count by exactly one. -/
theorem claim_C7 :
    (∀ (hand : List (List ℚ)) (rest rest2 : List (List (List ℚ))),
        processRecord ⟨some (hand :: rest)⟩ = processRecord ⟨some (hand :: rest2)⟩)
    ∧ ∀ (data : List SampleRecord) (label : ℕ) (r : SampleRecord),
        (r.landmarks = none ∨ r.landmarks = some []
          ∨ ∃ hand rest, r.landmarks = some (hand :: rest) ∧ hand.length ≠ 21) →
        load_landmark_data (data ++ [r]) label = load_landmark_data data label
        ∧ skippedCount (data ++ [r]) label = skippedCount data label + 1 := by
  constructor
  · intro hand rest rest2
    rfl
  · intro data label r hmal
    obtain ⟨lms⟩ := r
    have hr : processRecord ⟨lms⟩ = none := by
      rcases hmal with h | h | ⟨hand, rest, h, h21⟩ <;> simp only at h <;> subst h
      · rfl
      · rfl
      · simp only [processRecord]
        rw [if_neg h21]
    have heq := load_append_skip data ⟨lms⟩ label hr
    refine ⟨heq, ?_⟩
    unfold skippedCount
    rw [heq, List.length_append]
    have hle := load_count_le data label
    simp only [List.length_singleton]
    omega

/-- Claim C7 witness: using only the first hand on a concrete two-hand record,
and skipping a concrete record with no landmarks key: the load result is
unchanged and the skipped count increases from 0 to 1. -/
theorem claim_C7_witness :
    (processRecord ⟨some [[], [[1, 2]]]⟩ = processRecord ⟨some [[]]⟩)
    ∧ load_landmark_data [⟨none⟩] 0 = load_landmark_data [] 0
    ∧ skippedCount [⟨none⟩] 0 = skippedCount [] 0 + 1 :=
  ⟨claim_C7.1 [] [[[1, 2]]] [],
   (claim_C7.2 [] 0 ⟨none⟩ (Or.inl rfl)).1,
   (claim_C7.2 [] 0 ⟨none⟩ (Or.inl rfl)).2⟩

/-- When every point of a hand has at least two coordinates, the flattening
fold appends exactly the first two coordinates of each point in order. -/
theorem foldl_flatten_eq : ∀ (hand : List (List ℚ)) (init : List ℚ),
    (∀ p ∈ hand, 2 ≤ p.length) →
    hand.foldl (fun acc point =>
        if 2 ≤ point.length then acc ++ [point.getD 0 0, point.getD 1 0] else acc)
      init
      = init ++ hand.flatMap (fun p => [p.getD 0 0, p.getD 1 0])
  | [], init, _ => by simp
  | p :: rest, init, hall => by
    rw [List.foldl_cons, if_pos (hall p (List.mem_cons_self p rest)),
      foldl_flatten_eq rest _ (fun q hq => hall q (List.mem_cons_of_mem p hq))]
    simp

/-- Flattening two coordinates per point doubles the length. -/
theorem flatMap_pair_length (hand : List (List ℚ)) :
    (hand.flatMap (fun p => [p.getD 0 0, p.getD 1 0])).length = 2 * hand.length := by
  induction hand with
  | nil => simp
  | cons p rest ih =>
    simp only [List.flatMap_cons, List.length_append, List.length_cons,
      List.length_nil, ih]
    omega

/-- The flattening fold contributes two coordinates per point that carries at
least two of them, and nothing for shorter points. -/
theorem flattenHand_foldl_length : ∀ (hand : List (List ℚ)) (init : List ℚ),
    (hand.foldl (fun acc point =>
        if 2 ≤ point.length then acc ++ [point.getD 0 0, point.getD 1 0] else acc)
      init).length
      = init.length + 2 * hand.countP (fun p => decide (2 ≤ p.length))
  | [], init => by simp
  | p :: rest, init => by
    rw [List.foldl_cons, List.countP_cons]
    by_cases hp : 2 ≤ p.length
    · rw [if_pos hp, flattenHand_foldl_length rest _]
      simp [hp]
      omega
    · rw [if_neg hp, flattenHand_foldl_length rest _]
      simp [hp]

/-- The three dataset invariants of the loader fold: every accumulated vector
has 42 entries, labels stay parallel to features, and every label equals the
label argument. -/
theorem load_foldl_inv (label : ℕ) :
    ∀ (data : List SampleRecord) (acc : List (List ℚ) × List ℕ × ℕ),
      (∀ fv ∈ acc.1, fv.length = 42) →
      acc.2.1.length = acc.1.length →
      (∀ l ∈ acc.2.1, l = label) →
      (∀ fv ∈ (data.foldl (fun acc r =>
          match processRecord r with
          | some fv => (acc.1 ++ [fv], acc.2.1 ++ [label], acc.2.2 + 1)
          | none => acc) acc).1, fv.length = 42)
      ∧ (data.foldl (fun acc r =>
          match processRecord r with
          | some fv => (acc.1 ++ [fv], acc.2.1 ++ [label], acc.2.2 + 1)
          | none => acc) acc).2.1.length
        = (data.foldl (fun acc r =>
          match processRecord r with
          | some fv => (acc.1 ++ [fv], acc.2.1 ++ [label], acc.2.2 + 1)
          | none => acc) acc).1.length
      ∧ (∀ l ∈ (data.foldl (fun acc r =>
          match processRecord r with
          | some fv => (acc.1 ++ [fv], acc.2.1 ++ [label], acc.2.2 + 1)
          | none => acc) acc).2.1, l = label)
  | [], acc => fun h1 h2 h3 => by simpa using ⟨h1, h2, h3⟩
  | r :: rest, acc => fun h1 h2 h3 => by
    rw [List.foldl_cons]
    apply load_foldl_inv label rest
    · cases hr : processRecord r with
      | none => simpa using h1
      | some fv =>
        dsimp only
        intro v hv
        rcases List.mem_append.mp hv with hv | hv
        · exact h1 v hv
        · rw [List.mem_singleton.mp hv]
          exact processRecord_some_length r fv hr
    · cases hr : processRecord r with
      | none => simpa using h2
      | some fv => simp [h2]
    · cases hr : processRecord r with
      | none => simpa using h3
      | some fv =>
        dsimp only
        intro l hl
        rcases List.mem_append.mp hl with hl | hl
        · exact h3 l hl
        · exact List.mem_singleton.mp hl

/-- Claim C10: a loader point with more than two coordinates is accepted with
only its first two coordinates kept; a 21-point first hand containing a point
with fewer than two coordinates is silently skipped (its flattened vector is
shorter than 42); and every loaded feature vector has exactly 42 coordinates,
with a label list of the same length all whose entries equal the label
argument. -/
theorem claim_C10 :
    (∀ (data : List SampleRecord) (label : ℕ),
        (∀ fv ∈ (load_landmark_data data label).1, fv.length = 42)
        ∧ (load_landmark_data data label).2.1.length
            = (load_landmark_data data label).1.length
        ∧ ∀ l ∈ (load_landmark_data data label).2.1, l = label)
    ∧ (∀ (hand : List (List ℚ)) (rest : List (List (List ℚ))),
        hand.length = 21 → (∀ p ∈ hand, 2 ≤ p.length) →
        processRecord ⟨some (hand :: rest)⟩
          = some (hand.flatMap (fun p => [p.getD 0 0, p.getD 1 0])))
    ∧ ∀ (hand : List (List ℚ)) (rest : List (List (List ℚ))) (p : List ℚ),
        hand.length = 21 → p ∈ hand → p.length < 2 →
        processRecord ⟨some (hand :: rest)⟩ = none := by
  refine ⟨fun data label => ?_, fun hand rest h21 hall => ?_,
    fun hand rest p h21 hp hplen => ?_⟩
  · unfold load_landmark_data
    exact load_foldl_inv label data ([], [], 0) (by simp) rfl (by simp)
  · have hf : flattenHand hand = hand.flatMap (fun p => [p.getD 0 0, p.getD 1 0]) := by
      unfold flattenHand
      exact foldl_flatten_eq hand [] hall
    simp only [processRecord]
    rw [if_pos h21, hf, if_pos]
    rw [flatMap_pair_length, h21]
  · have hcnt : hand.countP (fun q => decide (2 ≤ q.length)) < hand.length := by
      refine lt_of_le_of_ne (List.countP_le_length _) (fun hcp => ?_)
      have hq := List.countP_eq_length.mp hcp p hp
      have := of_decide_eq_true hq
      omega
    have hflen : (flattenHand hand).length
        = 2 * hand.countP (fun q => decide (2 ≤ q.length)) := by
      unfold flattenHand
      rw [flattenHand_foldl_length hand []]
      simp
    simp only [processRecord]
    rw [if_pos h21, if_neg (show ¬(flattenHand hand).length = 42 from by
      rw [hflen]; omega)]

/-- Claim C10 witness: a hand of 21 three-coordinate points is accepted with
the first two coordinates of each point kept; a 21-point hand whose first
point has one coordinate is skipped; and a concrete load labels everything
with the label argument 3. -/
theorem claim_C10_witness :
    processRecord ⟨some [List.replicate 21 [(1 : ℚ), 2, 9]]⟩
      = some ((List.replicate 21 [(1 : ℚ), 2, 9]).flatMap
          (fun p => [p.getD 0 0, p.getD 1 0]))
    ∧ processRecord ⟨some [[(5 : ℚ)] :: List.replicate 20 [(1 : ℚ), 2]]⟩ = none
    ∧ ∀ l ∈ (load_landmark_data [⟨some [List.replicate 21 [(1 : ℚ), 2]]⟩] 3).2.1,
        l = 3 :=
  ⟨claim_C10.2.1 (List.replicate 21 [(1 : ℚ), 2, 9]) [] (by decide) (by decide),
   claim_C10.2.2 ([(5 : ℚ)] :: List.replicate 20 [(1 : ℚ), 2]) [] [(5 : ℚ)]
     (by decide) (List.mem_cons_self _ _) (by decide),
   (claim_C10.1 [⟨some [List.replicate 21 [(1 : ℚ), 2]]⟩] 3).2.2⟩

/-- Evaluation of featuresOfPoints on an explicit 21-point list, exposing all
24 feature expressions in source order. -/
theorem featuresOfPoints_explicit (a0 a1 a2 a3 a4 a5 a6 a7 a8 a9 a10 a11 a12 a13 a14 a15 a16 a17 a18 a19 a20 : ℚ × ℚ) :
    featuresOfPoints [a0, a1, a2, a3, a4, a5, a6, a7, a8, a9, a10, a11, a12, a13, a14, a15, a16, a17, a18, a19, a20] =
      [npNorm (vsub a4 a0), npNorm (vsub a8 a0), npNorm (vsub a12 a0), npNorm (vsub a16 a0), npNorm (vsub a20 a0),
       npMean [npNorm (vsub a4 a0), npNorm (vsub a8 a0), npNorm (vsub a12 a0), npNorm (vsub a16 a0), npNorm (vsub a20 a0)],
       ((pyMax [a4.1, a8.1, a12.1, a16.1, a20.1] - pyMin [a4.1, a8.1, a12.1, a16.1, a20.1] : ℚ) : ℝ),
       ((pyMax [a4.2, a8.2, a12.2, a16.2, a20.2] - pyMin [a4.2, a8.2, a12.2, a16.2, a20.2] : ℚ) : ℝ),
       npNorm (vsub a4 a8),
       npNorm (vsub a8 a12),
       cosAngle (vsub a5 a0) (vsub a9 a0),
       cosAngle (vsub a9 a0) (vsub a13 a0),
       cosAngle (vsub a13 a0) (vsub a17 a0),
       (((pyMax [a0.1, a1.1, a2.1, a3.1, a4.1, a5.1, a6.1, a7.1, a8.1, a9.1, a10.1, a11.1, a12.1, a13.1, a14.1, a15.1, a16.1, a17.1, a18.1, a19.1, a20.1] - pyMin [a0.1, a1.1, a2.1, a3.1, a4.1, a5.1, a6.1, a7.1, a8.1, a9.1, a10.1, a11.1, a12.1, a13.1, a14.1, a15.1, a16.1, a17.1, a18.1, a19.1, a20.1]) *
         (pyMax [a0.2, a1.2, a2.2, a3.2, a4.2, a5.2, a6.2, a7.2, a8.2, a9.2, a10.2, a11.2, a12.2, a13.2, a14.2, a15.2, a16.2, a17.2, a18.2, a19.2, a20.2] - pyMin [a0.2, a1.2, a2.2, a3.2, a4.2, a5.2, a6.2, a7.2, a8.2, a9.2, a10.2, a11.2, a12.2, a13.2, a14.2, a15.2, a16.2, a17.2, a18.2, a19.2, a20.2]) : ℚ) : ℝ),
       ((a4.1 - a0.1 : ℚ) : ℝ), ((a4.2 - a0.2 : ℚ) : ℝ),
       ((a8.1 - a0.1 : ℚ) : ℝ), ((a8.2 - a0.2 : ℚ) : ℝ),
       ((a12.1 - a0.1 : ℚ) : ℝ), ((a12.2 - a0.2 : ℚ) : ℝ),
       ((a16.1 - a0.1 : ℚ) : ℝ), ((a16.2 - a0.2 : ℚ) : ℝ),
       ((a20.1 - a0.1 : ℚ) : ℝ), ((a20.2 - a0.2 : ℚ) : ℝ)] := rfl

/-- A list of length 21 is an explicit 21-element list. -/
theorem list_eq_len21 {α : Type} (l : List α) (h : l.length = 21) :
    ∃ a0 a1 a2 a3 a4 a5 a6 a7 a8 a9 a10 a11 a12 a13 a14 a15 a16 a17 a18 a19 a20 : α,
      l = [a0, a1, a2, a3, a4, a5, a6, a7, a8, a9, a10, a11, a12, a13, a14, a15, a16, a17, a18, a19, a20] := by
  rcases l with _ | ⟨a0, l⟩
  · simp only [List.length_nil, List.length_cons] at h
    omega
  rcases l with _ | ⟨a1, l⟩
  · simp only [List.length_nil, List.length_cons] at h
    omega
  rcases l with _ | ⟨a2, l⟩
  · simp only [List.length_nil, List.length_cons] at h
    omega
  rcases l with _ | ⟨a3, l⟩
  · simp only [List.length_nil, List.length_cons] at h
    omega
  rcases l with _ | ⟨a4, l⟩
  · simp only [List.length_nil, List.length_cons] at h
    omega
  rcases l with _ | ⟨a5, l⟩
  · simp only [List.length_nil, List.length_cons] at h
    omega
  rcases l with _ | ⟨a6, l⟩
  · simp only [List.length_nil, List.length_cons] at h
    omega
  rcases l with _ | ⟨a7, l⟩
  · simp only [List.length_nil, List.length_cons] at h
    omega
  rcases l with _ | ⟨a8, l⟩
  · simp only [List.length_nil, List.length_cons] at h
    omega
  rcases l with _ | ⟨a9, l⟩
  · simp only [List.length_nil, List.length_cons] at h
    omega
  rcases l with _ | ⟨a10, l⟩
  · simp only [List.length_nil, List.length_cons] at h
    omega
  rcases l with _ | ⟨a11, l⟩
  · simp only [List.length_nil, List.length_cons] at h
    omega
  rcases l with _ | ⟨a12, l⟩
  · simp only [List.length_nil, List.length_cons] at h
    omega
  rcases l with _ | ⟨a13, l⟩
  · simp only [List.length_nil, List.length_cons] at h
    omega
  rcases l with _ | ⟨a14, l⟩
  · simp only [List.length_nil, List.length_cons] at h
    omega
  rcases l with _ | ⟨a15, l⟩
  · simp only [List.length_nil, List.length_cons] at h
    omega
  rcases l with _ | ⟨a16, l⟩
  · simp only [List.length_nil, List.length_cons] at h
    omega
  rcases l with _ | ⟨a17, l⟩
  · simp only [List.length_nil, List.length_cons] at h
    omega
  rcases l with _ | ⟨a18, l⟩
  · simp only [List.length_nil, List.length_cons] at h
    omega
  rcases l with _ | ⟨a19, l⟩
  · simp only [List.length_nil, List.length_cons] at h
    omega
  rcases l with _ | ⟨a20, l⟩
  · simp only [List.length_nil, List.length_cons] at h
    omega
  rcases l with _ | ⟨a21, l⟩
  · exact ⟨a0, a1, a2, a3, a4, a5, a6, a7, a8, a9, a10, a11, a12, a13, a14, a15, a16, a17, a18, a19, a20, rfl⟩
  · simp only [List.length_cons] at h
    omega

/-- Pointwise equal functions give equal maps. -/
theorem map_eq_of_forall {α β : Type} (f g : α → β) :
    ∀ l : List α, (∀ a ∈ l, f a = g a) → l.map f = l.map g
  | [], _ => rfl
  | x :: xs, h => by
    rw [List.map_cons, List.map_cons, h x (List.mem_cons_self x xs),
      map_eq_of_forall f g xs (fun a ha => h a (List.mem_cons_of_mem x ha))]

/-- translatePoint preserves the number of coordinates of a point. -/
theorem translatePoint_length (dx dy : ℚ) (p : List ℚ) :
    (translatePoint dx dy p).length = p.length := by
  rcases p with _ | ⟨x, _ | ⟨y, rest⟩⟩ <;> rfl

/-- Converting a translated point to its first two coordinates is the shift of
the converted point, for points with at least two coordinates. -/
theorem toPair_translate (dx dy : ℚ) (p : List ℚ) (h : 2 ≤ p.length) :
    ((translatePoint dx dy p).getD 0 0, (translatePoint dx dy p).getD 1 0)
      = shiftPt dx dy (p.getD 0 0, p.getD 1 0) := by
  rcases p with _ | ⟨x, _ | ⟨y, rest⟩⟩
  · simp at h
  · simp at h
  · rfl

/-- featuresOfPoints is invariant under a constant shift of all 21 points:
every feature is built from coordinate differences, maxima and minima, which
all cancel the shift. -/
theorem featuresOfPoints_map_shift (dx dy : ℚ) (a0 a1 a2 a3 a4 a5 a6 a7 a8 a9 a10 a11 a12 a13 a14 a15 a16 a17 a18 a19 a20 : ℚ × ℚ) :
    featuresOfPoints ([a0, a1, a2, a3, a4, a5, a6, a7, a8, a9, a10, a11, a12, a13, a14, a15, a16, a17, a18, a19, a20].map (shiftPt dx dy))
      = featuresOfPoints [a0, a1, a2, a3, a4, a5, a6, a7, a8, a9, a10, a11, a12, a13, a14, a15, a16, a17, a18, a19, a20] := by
  simp only [List.map_cons, List.map_nil]
  rw [featuresOfPoints_explicit, featuresOfPoints_explicit]
  simp only [shiftPt, vsub, npNorm, npMean, cosAngle, pyMax, pyMin,
    List.foldl_cons, List.foldl_nil, List.headD_cons, List.map_cons,
    List.map_nil, List.sum_cons, List.sum_nil, List.length_cons,
    List.length_nil, max_self, min_self, max_add_add_right, min_add_add_right,
    add_sub_add_right_eq_sub]

/-- Claim C5: feature extraction is translation-invariant: translating every
point of a valid 21-point landmark set by a constant offset (dx, dy) leaves
the whole extracted feature vector - in particular all wrist-relative and
inter-point distance features - unchanged. -/
theorem claim_C5 (landmarks : List (List ℚ)) (dx dy : ℚ)
    (h1 : landmarks.length = 21) (h2 : ∀ p ∈ landmarks, 2 ≤ p.length) :
    extract_features (landmarks.map (translatePoint dx dy))
      = extract_features landmarks := by
  have hlen : (landmarks.map (translatePoint dx dy)).length = 21 := by
    rw [List.length_map]; exact h1
  have harity : ∀ p ∈ landmarks.map (translatePoint dx dy), 2 ≤ p.length := by
    intro p hp
    obtain ⟨q, hq, rfl⟩ := List.mem_map.mp hp
    rw [translatePoint_length]
    exact h2 q hq
  unfold extract_features
  rw [if_pos hlen, if_pos harity, if_pos h1, if_pos h2]
  have hcomm : (landmarks.map (translatePoint dx dy)).map
        (fun p => (p.getD 0 0, p.getD 1 0))
      = (landmarks.map (fun p => (p.getD 0 0, p.getD 1 0))).map
        (shiftPt dx dy) := by
    rw [List.map_map, List.map_map]
    refine map_eq_of_forall _ _ landmarks (fun p hp => ?_)
    show ((translatePoint dx dy p).getD 0 0, (translatePoint dx dy p).getD 1 0)
        = shiftPt dx dy (p.getD 0 0, p.getD 1 0)
    exact toPair_translate dx dy p (h2 p hp)
  rw [hcomm]
  have hplen : (landmarks.map (fun p => (p.getD 0 0, p.getD 1 0))).length = 21 := by
    rw [List.length_map]; exact h1
  obtain ⟨a0, a1, a2, a3, a4, a5, a6, a7, a8, a9, a10, a11, a12, a13, a14, a15, a16, a17, a18, a19, a20, heq⟩ := list_eq_len21 _ hplen
  rw [heq]
  exact congrArg some (featuresOfPoints_map_shift dx dy a0 a1 a2 a3 a4 a5 a6 a7 a8 a9 a10 a11 a12 a13 a14 a15 a16 a17 a18 a19 a20)

/-- Claim C5 witness: translating a concrete valid landmark set by (3, 5)
leaves the extracted features unchanged. -/
theorem claim_C5_witness :
    extract_features ((List.replicate 21 [(0 : ℚ), 0]).map (translatePoint 3 5))
      = extract_features (List.replicate 21 [(0 : ℚ), 0]) :=
  claim_C5 (List.replicate 21 [(0 : ℚ), 0]) 3 5 (by decide) (by decide)

/-- Claim C8 (amended): the persisted metadata consists exactly of the six
keys model_type, feature_count, training_samples, fist_samples, palm_samples,
accuracy - where accuracy is the chosen classifier's accuracy re-scored on
the entire dataset (the same full-dataset score used for model selection),
not its accuracy on the held-out test partition. -/
theorem claim_C8 (X : List (List ℝ)) (y : List ℕ) (rf svm : List ℝ → ℕ) :
    buildMetadata X y rf svm =
      { model_type := (selectBestModel X y rf svm).1
        feature_count := (X.headD []).length
        training_samples := X.length
        fist_samples := y.countP (fun l => l == 0)
        palm_samples := y.countP (fun l => l == 1)
        accuracy := accuracy_score y (X.map ((selectBestModel X y rf svm).2)) } := by
  by_cases h : accuracy_score y (X.map svm) ≤ accuracy_score y (X.map rf)
  · simp [buildMetadata, selectBestModel, if_pos h]
  · simp [buildMetadata, selectBestModel, if_neg h]

/-- Claim C8 counterexample: on a concrete five-sample dataset with a 20%
held-out partition, the chosen random forest has full-dataset accuracy 4/5,
which is what the metadata stores, while its held-out accuracy on the test
partition is 0 - so the stored accuracy is not the held-out accuracy. -/
theorem claim_C8_counterexample :
    (buildMetadata [[(0 : ℝ)], [0], [0], [0], [0]] [0, 0, 0, 0, 1]
        (fun _ => 0) (fun _ => 1)).model_type = "random_forest"
    ∧ (buildMetadata [[(0 : ℝ)], [0], [0], [0], [0]] [0, 0, 0, 0, 1]
        (fun _ => 0) (fun _ => 1)).accuracy = 4 / 5
    ∧ heldoutAccuracy [[(0 : ℝ)]] [1] (fun _ => 0) = 0
    ∧ (4 / 5 : ℚ) ≠ 0 := by
  have hrf : accuracy_score [0, 0, 0, 0, 1] [0, 0, 0, 0, 0] = 4 / 5 := by
    norm_num [accuracy_score, List.zip_cons_cons, List.countP_cons,
      List.countP_nil]
  have hsvm : accuracy_score [0, 0, 0, 0, 1] [1, 1, 1, 1, 1] = 1 / 5 := by
    norm_num [accuracy_score, List.zip_cons_cons, List.countP_cons,
      List.countP_nil]
  have hcond : accuracy_score [0, 0, 0, 0, 1] [1, 1, 1, 1, 1]
      ≤ accuracy_score [0, 0, 0, 0, 1] [0, 0, 0, 0, 0] := by
    rw [hrf, hsvm]
    norm_num
  refine ⟨?_, ?_, ?_, by norm_num⟩
  · simp [buildMetadata, if_pos hcond]
  · simp [buildMetadata, if_pos hcond, hrf]
    intro hlt
    rw [hsvm] at hlt
    norm_num at hlt
  · norm_num [heldoutAccuracy, accuracy_score, List.zip_cons_cons,
      List.countP_cons, List.countP_nil]
